import Mathlib

/-!
# CFSS agent core — shallow embedding

A shallow embedding of the per-step state-transition core of the CFSS agent
simulator (`agent.py`): the bounded-value utilities, the three composite
indicators, the six-variable state update engine, the agent→environment
action loop, and the snapshot recorder.

Python floats are modelled as exact rationals (`ℚ`).  Each call to
`random.gauss(0.0, std)` is modelled location-scale style as `std * u`,
where `u` is one draw of an externally supplied draw sequence; a `Draws`
record carries the (up to) eleven unit draws one step can consume, in the
order the source consumes them.
-/

namespace CFSS

/-- Source `clamp01` from agent.py: `0.0 if x < 0.0 else 1.0 if x > 1.0 else x`. -/
def clamp01 (x : ℚ) : ℚ := if x < 0 then 0 else if x > 1 then 1 else x

/-- Source `homeostasis(x, target, k)`: pull `x` toward `target` by fraction `k`. -/
def homeostasis (x target k : ℚ) : ℚ := x + k * (target - x)

/-- Source `temp_stress(celsius, comfort, scale)`: `clamp01(|T - comfort| / scale)`;
every call site uses the default `scale = 20.0`. -/
def temp_stress (celsius comfort scale : ℚ) : ℚ :=
  clamp01 (|celsius - comfort| / scale)

/-- Source `sat_factor(x)` with the default `floor = 0.1` (the only floor used):
`floor + (1.0 - floor) * (4.0 * x * (1.0 - x))`. -/
def sat_factor (x : ℚ) : ℚ := 0.1 + (1.0 - 0.1) * (4.0 * x * (1.0 - x))

/-- Source `edge_factor(x) = clamp01(1.0 - 4.0 * x * (1.0 - x))`. -/
def edge_factor (x : ℚ) : ℚ := clamp01 (1.0 - 4.0 * x * (1.0 - x))

/-- Source `inv_u(x) = 4.0 * x * (1.0 - x)`. -/
def inv_u (x : ℚ) : ℚ := 4.0 * x * (1.0 - x)

/-- The six internal-state scalars (`Agent.internal_state`). -/
structure InternalState where
  pain : ℚ
  instability : ℚ
  need_for_control : ℚ
  cognitive_load : ℚ
  neurochem_balance : ℚ
  fatigue : ℚ
deriving DecidableEq

/-- The five environment scalars (`Agent.environment`). -/
structure Environment where
  temperature : ℚ
  confinement : ℚ
  social_contact : ℚ
  noise_level : ℚ
  light_level : ℚ
deriving DecidableEq

/-- The five regulation scalars (`Agent.regulation`). -/
structure Regulation where
  breathing : ℚ
  cognitive_override : ℚ
  pharmacology : ℚ
  meditation : ℚ
  exercise : ℚ
deriving DecidableEq

/-- The five nutrition scalars (`Agent.nutrition`). -/
structure Nutrition where
  glucose_level : ℚ
  tryptophan : ℚ
  tyrosine : ℚ
  hydration : ℚ
  vitamin_b12 : ℚ
deriving DecidableEq

/-- One variable's weight set `{env, int, reg, nut, decay}` from
`params.weights`. -/
structure VarWeights where
  env : ℚ
  int : ℚ
  reg : ℚ
  nut : ℚ
  decay : ℚ
deriving DecidableEq

/-- The per-variable homeostasis targets (`params.targets`). -/
structure Targets where
  pain : ℚ
  instability : ℚ
  need_for_control : ℚ
  cognitive_load : ℚ
  neurochem_balance : ℚ
  fatigue : ℚ
deriving DecidableEq

/-- The environment-update knobs (`params.env_update`). -/
structure EnvUpdate where
  comfort_temperature : ℚ
  env_step : ℚ
  dispersion_noise : ℚ
deriving DecidableEq

/-- The per-variable weight sets (`params.weights`). -/
structure Weights where
  cognitive_load : VarWeights
  pain : VarWeights
  fatigue : VarWeights
  neurochem_balance : VarWeights
  instability : VarWeights
  need_for_control : VarWeights
deriving DecidableEq

/-- The `params` section. -/
structure Params where
  noise_std : ℚ
  targets : Targets
  env_update : EnvUpdate
  weights : Weights
deriving DecidableEq

/-- Unit draws consumed by `_update_environment`: one for the temperature
gauss call and one for each of the four nudged variables, in source order. -/
structure EnvDraws where
  uT : ℚ
  u_confinement : ℚ
  u_noise : ℚ
  u_light : ℚ
  u_social : ℚ
deriving DecidableEq

/-- Unit draws for one full step: one per internal-state noise call (in the
fixed update order), then the environment draws. -/
structure Draws where
  u_load : ℚ
  u_pain : ℚ
  u_fatigue : ℚ
  u_ncb : ℚ
  u_inst : ℚ
  u_nfc : ℚ
  env : EnvDraws
deriving DecidableEq

/-- Source `Agent._env_stress`. -/
def env_stress (p : Params) (e : Environment) : ℚ :=
  let social_deficit := 1.0 - e.social_contact
  clamp01 (
    0.35 * temp_stress e.temperature p.env_update.comfort_temperature 20.0 +
    0.25 * e.confinement +
    0.20 * e.noise_level +
    0.20 * e.light_level +
    0.20 * social_deficit)

/-- Source `Agent._reg_relief`. -/
def reg_relief (r : Regulation) : ℚ :=
  clamp01 (
    0.35 * r.breathing +
    0.30 * r.meditation +
    0.25 * r.cognitive_override +
    0.15 * r.exercise +
    0.40 * r.pharmacology)

/-- Source `Agent._nutrition_support`. -/
def nutrition_support (n : Nutrition) : ℚ :=
  clamp01 (
    0.30 * n.glucose_level +
    0.30 * n.hydration +
    0.25 * n.tryptophan +
    0.20 * n.tyrosine +
    0.15 * n.vitamin_b12)

/-- Source `Agent._noise_for(x)`: `random.gauss(0, noise_std * (0.5 + 0.5*edge_factor(x)))`,
modelled as the std times the unit draw `u`. -/
def noise_for (p : Params) (x u : ℚ) : ℚ :=
  (p.noise_std * (0.5 + 0.5 * edge_factor x)) * u

/-- The `pull(x, k, var)` helper local to `simulate_step`:
`homeostasis(x, target, k*dt)` with the variable's target. -/
def pull (x k target dt : ℚ) : ℚ := homeostasis x target (k * dt)

/-- The cognitive-load push term of `simulate_step` (before the saturation
scaling): `w.env*env + w.int*(0.6*pain + 0.4*instability) - w.reg*reg - w.nut*nut`. -/
def load_push (p : Params) (env reg nut pain instability : ℚ) : ℚ :=
  let w := p.weights.cognitive_load
  w.env * env + w.int * (0.6 * pain + 0.4 * instability) - w.reg * reg - w.nut * nut

/-- Update 1 of `simulate_step`: the new `cognitive_load` value, computed from
the pre-step values of `pain`, `instability` and `cognitive_load`. -/
def load_update (p : Params) (dt env reg nut pain instability cognitive_load u : ℚ) : ℚ :=
  let w := p.weights.cognitive_load
  clamp01 (
    pull cognitive_load w.decay p.targets.cognitive_load dt
    + dt * (load_push p env reg nut pain instability * sat_factor cognitive_load)
    + noise_for p cognitive_load u)

/-- Update 2 of `simulate_step`: the new `pain` value.  In the source this
runs before the `instability` and `fatigue` updates, so the `instability` and
`fatigue` values it reads are the pre-step ones. -/
def pain_update (p : Params) (r : Regulation) (n : Nutrition) (e0 : Environment)
    (dt env reg instability fatigue pain u : ℚ) : ℚ :=
  let w := p.weights.pain
  let pain_push :=
    w.env * (0.5 * env + 0.5 * temp_stress e0.temperature p.env_update.comfort_temperature 20.0) +
    w.int * (0.6 * instability + 0.4 * fatigue) -
    w.reg * (0.4 * reg + 0.4 * r.pharmacology) -
    w.nut * (0.6 * n.hydration + 0.4 * n.glucose_level)
  clamp01 (
    pull pain w.decay p.targets.pain dt
    + dt * (pain_push * sat_factor pain)
    + noise_for p pain u)

/-- Update 3 of `simulate_step`: the new `fatigue` value, reading the
already-updated `cognitive_load` and `pain`. -/
def fatigue_update (p : Params) (r : Regulation) (n : Nutrition) (e0 : Environment)
    (dt env cognitive_load pain fatigue u : ℚ) : ℚ :=
  let w := p.weights.fatigue
  let fatigue_push :=
    w.env * (0.3 * env + 0.2 * e0.light_level) +
    w.int * (0.6 * cognitive_load + 0.4 * pain) +
    w.reg * (0.3 * r.exercise) * 0.5
    - w.nut * (0.6 * n.glucose_level + 0.4 * n.hydration)
  clamp01 (
    pull fatigue w.decay p.targets.fatigue dt
    + dt * (fatigue_push * sat_factor fatigue)
    + noise_for p fatigue u)

/-- Update 4 of `simulate_step`: the new `neurochem_balance` value, reading
the already-updated `cognitive_load` and `pain`. -/
def ncb_update (p : Params) (r : Regulation) (n : Nutrition)
    (dt env cognitive_load pain neurochem_balance u : ℚ) : ℚ :=
  let w := p.weights.neurochem_balance
  let ncb_push :=
    - w.env * env
    - w.int * (0.5 * cognitive_load + 0.5 * pain)
    + w.reg * (0.4 * r.meditation + 0.3 * r.exercise)
    + w.nut * (0.5 * n.tryptophan + 0.4 * n.tyrosine + 0.3 * n.vitamin_b12)
  clamp01 (
    pull neurochem_balance w.decay p.targets.neurochem_balance dt
    + dt * (ncb_push * sat_factor neurochem_balance)
    + noise_for p neurochem_balance u)

/-- Update 5 of `simulate_step`: the new `instability` value, reading the
already-updated `cognitive_load`, `fatigue` and `pain`. -/
def inst_update (p : Params) (e0 : Environment)
    (dt env reg nut cognitive_load fatigue pain instability u : ℚ) : ℚ :=
  let w := p.weights.instability
  let inst_push :=
    w.env * (env + 0.2 * e0.noise_level) +
    w.int * (0.4 * cognitive_load + 0.4 * fatigue + 0.2 * pain) -
    w.reg * reg -
    w.nut * nut
  clamp01 (
    pull instability w.decay p.targets.instability dt
    + dt * (inst_push * sat_factor instability)
    + noise_for p instability u)

/-- Update 6 of `simulate_step`: the new `need_for_control` value, reading
the already-updated `instability` and `pain`. -/
def nfc_update (p : Params) (r : Regulation) (e0 : Environment)
    (dt nut instability pain need_for_control u : ℚ) : ℚ :=
  let w := p.weights.need_for_control
  let unpredictability := clamp01 (0.6 * e0.noise_level + 0.4 * (1.0 - e0.social_contact))
  let nfc_push :=
    w.env * unpredictability +
    w.int * (0.6 * instability + 0.4 * pain) -
    w.reg * (0.5 * r.breathing + 0.5 * r.meditation) -
    w.nut * (0.3 * nut)
  clamp01 (
    pull need_for_control w.decay p.targets.need_for_control dt
    + dt * (nfc_push * sat_factor need_for_control)
    + noise_for p need_for_control u)

/-- The six internal-state updates of `simulate_step`, in the source's fixed
order (cognitive_load, pain, fatigue, neurochem_balance, instability,
need_for_control), later updates reading earlier updates' new values. -/
def step_internal (p : Params) (r : Regulation) (n : Nutrition) (d : Draws)
    (dt : ℚ) (s0 : InternalState) (e0 : Environment) : InternalState :=
  let env := env_stress p e0
  let reg := reg_relief r
  let nut := nutrition_support n
  let cl := load_update p dt env reg nut s0.pain s0.instability s0.cognitive_load d.u_load
  let pn := pain_update p r n e0 dt env reg s0.instability s0.fatigue s0.pain d.u_pain
  let ft := fatigue_update p r n e0 dt env cl pn s0.fatigue d.u_fatigue
  let ncb := ncb_update p r n dt env cl pn s0.neurochem_balance d.u_ncb
  let inst := inst_update p e0 dt env reg nut cl ft pn s0.instability d.u_inst
  let nfc := nfc_update p r e0 dt nut inst pn s0.need_for_control d.u_nfc
  { pain := pn, instability := inst, need_for_control := nfc,
    cognitive_load := cl, neurochem_balance := ncb, fatigue := ft }

/-- Source `Agent._motivation_ability_dispersion(env, reg, nut)`: the
(motivation, ability, dispersion) triple. -/
def motivation_ability_dispersion (s : InternalState) (env reg nut : ℚ) : ℚ × ℚ × ℚ :=
  let m := clamp01 (
      0.25 * s.pain
    + 0.20 * inv_u s.need_for_control
    + 0.15 * s.cognitive_load
    + 0.20 * env
    - 0.10 * reg
    - 0.10 * s.fatigue
    - 0.10 * s.neurochem_balance)
  let a := clamp01 (
      0.30 * s.neurochem_balance
    + 0.25 * nut
    + 0.20 * reg
    - 0.20 * s.fatigue
    - 0.15 * s.pain
    - 0.10 * s.cognitive_load
    - 0.10 * env
    + 0.10 * inv_u s.need_for_control)
  let disp := max 0.3 (min 1.7 (
      0.50
    + 0.30 * s.instability
    + 0.20 * env
    - 0.20 * reg
    + 0.10 * s.need_for_control))
  (m, a, disp)

/-- Source `Agent._update_environment(motive, ability, dispersion, dt)`: if
`act = motive*ability ≤ 0` the environment is returned unchanged; otherwise
temperature drifts toward comfort (unclamped) and the four bounded variables
are nudged and clamped.  `random.gauss(0, σ)` is modelled as `σ * u`. -/
def update_environment (p : Params) (motive ability dispersion dt : ℚ)
    (d : EnvDraws) (e : Environment) : Environment :=
  let act := motive * ability
  if act ≤ 0 then e
  else
    let step := p.env_update.env_step * act * dt
    let comfort_T := p.env_update.comfort_temperature
    let disp_noise := p.env_update.dispersion_noise * dispersion
    let dT := step * (comfort_T - e.temperature) + (disp_noise * 2.0) * d.uT
    let nudgedown := fun (x u : ℚ) => clamp01 (x + (-step * (0.25 + 0.75 * x) + disp_noise * u))
    let nudgeup := fun (x u : ℚ) => clamp01 (x + (step * (0.25 + 0.75 * (1.0 - x)) + disp_noise * u))
    { temperature := e.temperature + dT,
      confinement := nudgedown e.confinement d.u_confinement,
      social_contact := nudgeup e.social_contact d.u_social,
      noise_level := nudgedown e.noise_level d.u_noise,
      light_level := nudgedown e.light_level d.u_light }

/-- One row appended to `Agent.history` by `simulate_step`, with the fields
of the source's dict literal, in order. -/
structure StepSnapshot where
  step : ℕ
  pain : ℚ
  instability : ℚ
  need_for_control : ℚ
  cognitive_load : ℚ
  neurochem_balance : ℚ
  fatigue : ℚ
  env_stress : ℚ
  reg_relief : ℚ
  nut_support : ℚ
  temperature : ℚ
  confinement : ℚ
  social_contact : ℚ
  noise_level : ℚ
  light_level : ℚ
  breathing : ℚ
  cognitive_override : ℚ
  pharmacology : ℚ
  meditation : ℚ
  exercise : ℚ
  glucose_level : ℚ
  tryptophan : ℚ
  tyrosine : ℚ
  hydration : ℚ
  vitamin_b12 : ℚ
  motive : ℚ
  ability : ℚ
  dispersion : ℚ
deriving DecidableEq

/-- The result of one `simulate_step` call: the new internal state, the new
environment, and the snapshot appended to the history. -/
structure StepResult where
  internal : InternalState
  environment : Environment
  snapshot : StepSnapshot
deriving DecidableEq

/-- Source `Agent.simulate_step(dt)`: composites, the six internal updates in fixed
order, the action loop, post-action composites, and the snapshot.  `stepIdx`
is the value of `self.step` before the call (the snapshot records
`stepIdx + 1`). -/
def simulate_step (p : Params) (r : Regulation) (n : Nutrition) (d : Draws)
    (dt : ℚ) (stepIdx : ℕ) (s0 : InternalState) (e0 : Environment) : StepResult :=
  let env := env_stress p e0
  let reg := reg_relief r
  let nut := nutrition_support n
  let s1 := step_internal p r n d dt s0 e0
  let mad := motivation_ability_dispersion s1 env reg nut
  let e1 := update_environment p mad.1 mad.2.1 mad.2.2 dt d.env e0
  let env2 := env_stress p e1
  let reg2 := reg_relief r
  let nut2 := nutrition_support n
  { internal := s1,
    environment := e1,
    snapshot :=
    { step := stepIdx + 1,
      pain := s1.pain,
      instability := s1.instability,
      need_for_control := s1.need_for_control,
      cognitive_load := s1.cognitive_load,
      neurochem_balance := s1.neurochem_balance,
      fatigue := s1.fatigue,
      env_stress := env2,
      reg_relief := reg2,
      nut_support := nut2,
      temperature := e1.temperature,
      confinement := e1.confinement,
      social_contact := e1.social_contact,
      noise_level := e1.noise_level,
      light_level := e1.light_level,
      breathing := r.breathing,
      cognitive_override := r.cognitive_override,
      pharmacology := r.pharmacology,
      meditation := r.meditation,
      exercise := r.exercise,
      glucose_level := n.glucose_level,
      tryptophan := n.tryptophan,
      tyrosine := n.tyrosine,
      hydration := n.hydration,
      vitamin_b12 := n.vitamin_b12,
      motive := mad.1,
      ability := mad.2.1,
      dispersion := mad.2.2 } }

/-- Values of `DEFAULT_CONFIG["internal_state"]`. -/
def default_internal : InternalState :=
  { pain := 0.2, instability := 0.4, need_for_control := 0.5,
    cognitive_load := 0.4, neurochem_balance := 0.6, fatigue := 0.3 }

/-- Values of `DEFAULT_CONFIG["environment"]`. -/
def default_environment : Environment :=
  { temperature := 22.0, confinement := 0.2, social_contact := 0.5,
    noise_level := 0.3, light_level := 0.6 }

/-- Values of `DEFAULT_CONFIG["regulation"]`. -/
def default_regulation : Regulation :=
  { breathing := 0.3, cognitive_override := 0.3, pharmacology := 0.0,
    meditation := 0.2, exercise := 0.1 }

/-- Values of `DEFAULT_CONFIG["nutrition"]`. -/
def default_nutrition : Nutrition :=
  { glucose_level := 0.7, tryptophan := 0.5, tyrosine := 0.5,
    hydration := 0.8, vitamin_b12 := 0.7 }

/-- Values of `DEFAULT_CONFIG["params"]`. -/
def default_params : Params :=
  { noise_std := 0.01,
    targets :=
      { pain := 0.20, instability := 0.20, need_for_control := 0.35,
        cognitive_load := 0.25, neurochem_balance := 0.70, fatigue := 0.25 },
    env_update :=
      { comfort_temperature := 22.0, env_step := 0.05, dispersion_noise := 0.02 },
    weights :=
      { cognitive_load := { env := 0.35, int := 0.30, reg := 0.30, nut := 0.20, decay := 0.05 },
        pain := { env := 0.25, int := 0.30, reg := 0.20, nut := 0.10, decay := 0.05 },
        fatigue := { env := 0.15, int := 0.25, reg := 0.15, nut := 0.25, decay := 0.05 },
        neurochem_balance := { env := 0.15, int := 0.20, reg := 0.20, nut := 0.40, decay := 0.04 },
        instability := { env := 0.20, int := 0.30, reg := 0.20, nut := 0.15, decay := 0.04 },
        need_for_control := { env := 0.20, int := 0.25, reg := 0.25, nut := 0.10, decay := 0.05 } } }

/-- The all-zero draw record (every gauss call returns its mean, 0). -/
def zero_draws : Draws :=
  { u_load := 0, u_pain := 0, u_fatigue := 0, u_ncb := 0, u_inst := 0, u_nfc := 0,
    env := { uT := 0, u_confinement := 0, u_noise := 0, u_light := 0, u_social := 0 } }

/-- Membership of a scalar in the unit interval. -/
def bounded01 (x : ℚ) : Prop := 0 ≤ x ∧ x ≤ 1

/-- All six internal-state scalars lie in `[0,1]`. -/
def state_bounded (s : InternalState) : Prop :=
  bounded01 s.pain ∧ bounded01 s.instability ∧ bounded01 s.need_for_control ∧
  bounded01 s.cognitive_load ∧ bounded01 s.neurochem_balance ∧ bounded01 s.fatigue

/-- The four `[0,1]`-typed environment scalars lie in `[0,1]`
(`temperature` is exempt). -/
def env_bounded (e : Environment) : Prop :=
  bounded01 e.confinement ∧ bounded01 e.social_contact ∧
  bounded01 e.noise_level ∧ bounded01 e.light_level

/-- All five regulation scalars lie in `[0,1]`. -/
def reg_bounded (r : Regulation) : Prop :=
  bounded01 r.breathing ∧ bounded01 r.cognitive_override ∧ bounded01 r.pharmacology ∧
  bounded01 r.meditation ∧ bounded01 r.exercise

/-- All five nutrition scalars lie in `[0,1]`. -/
def nut_bounded (n : Nutrition) : Prop :=
  bounded01 n.glucose_level ∧ bounded01 n.tryptophan ∧ bounded01 n.tyrosine ∧
  bounded01 n.hydration ∧ bounded01 n.vitamin_b12

/-- Spec-side `RegulatoryRelief` as the spec words it (§4.1): `clamp01(0.35·breathing +
0.30·meditation + 0.25·cognitiveOverride + 0.15·exercise + 0.40·pharmacology)`,
weights unrenormalized, one final clamp. -/
def regulatoryReliefSpec (r : Regulation) : ℚ :=
  clamp01 (0.35 * r.breathing + 0.30 * r.meditation + 0.25 * r.cognitive_override +
    0.15 * r.exercise + 0.40 * r.pharmacology)

/-- The history row built by `simulate_step` (the source's dict literal) as an
ordered key/value list; the step index is cast to `ℚ` for a homogeneous value
type. -/
def snapshotRow (s : StepSnapshot) : List (String × ℚ) :=
  [("step", (s.step : ℚ)),
   ("pain", s.pain),
   ("instability", s.instability),
   ("need_for_control", s.need_for_control),
   ("cognitive_load", s.cognitive_load),
   ("neurochem_balance", s.neurochem_balance),
   ("fatigue", s.fatigue),
   ("env_stress", s.env_stress),
   ("reg_relief", s.reg_relief),
   ("nut_support", s.nut_support),
   ("temperature", s.temperature),
   ("confinement", s.confinement),
   ("social_contact", s.social_contact),
   ("noise_level", s.noise_level),
   ("light_level", s.light_level),
   ("breathing", s.breathing),
   ("cognitive_override", s.cognitive_override),
   ("pharmacology", s.pharmacology),
   ("meditation", s.meditation),
   ("exercise", s.exercise),
   ("glucose_level", s.glucose_level),
   ("tryptophan", s.tryptophan),
   ("tyrosine", s.tyrosine),
   ("hydration", s.hydration),
   ("vitamin_b12", s.vitamin_b12),
   ("motive", s.motive),
   ("ability", s.ability),
   ("dispersion", s.dispersion)]

/-- The snapshot field names, in the order of the source's dict literal. -/
def snapshotFieldNames : List String :=
  ["step", "pain", "instability", "need_for_control", "cognitive_load",
   "neurochem_balance", "fatigue", "env_stress", "reg_relief", "nut_support",
   "temperature", "confinement", "social_contact", "noise_level", "light_level",
   "breathing", "cognitive_override", "pharmacology", "meditation", "exercise",
   "glucose_level", "tryptophan", "tyrosine", "hydration", "vitamin_b12",
   "motive", "ability", "dispersion"]

/-! ## Update-order variants (§8 of the spec, order-sensitivity test)

`step_internal_painPre` mutates the step so that `pain`'s push reads
`instability`'s *pre-update* value.  In the source the `pain` update (update 2)
runs before the `instability` update (update 5), so the value it reads,
`s0.instability`, already *is* the pre-update one: the mutated body coincides
with `step_internal` term for term.

`step_internal_instPre` mutates the genuinely order-sensitive read in the same
variable pair: `instability`'s push reads `pain`'s pre-update value `s0.pain`
instead of the freshly updated `pn`. -/

/-- Variant: `pain`'s push uses `instability`'s pre-update value (a no-op
mutation, see above). -/
def step_internal_painPre (p : Params) (r : Regulation) (n : Nutrition) (d : Draws)
    (dt : ℚ) (s0 : InternalState) (e0 : Environment) : InternalState :=
  let env := env_stress p e0
  let reg := reg_relief r
  let nut := nutrition_support n
  let cl := load_update p dt env reg nut s0.pain s0.instability s0.cognitive_load d.u_load
  let pn := pain_update p r n e0 dt env reg s0.instability s0.fatigue s0.pain d.u_pain
  let ft := fatigue_update p r n e0 dt env cl pn s0.fatigue d.u_fatigue
  let ncb := ncb_update p r n dt env cl pn s0.neurochem_balance d.u_ncb
  let inst := inst_update p e0 dt env reg nut cl ft pn s0.instability d.u_inst
  let nfc := nfc_update p r e0 dt nut inst pn s0.need_for_control d.u_nfc
  { pain := pn, instability := inst, need_for_control := nfc,
    cognitive_load := cl, neurochem_balance := ncb, fatigue := ft }

/-- Variant: `instability`'s push uses `pain`'s pre-update value `s0.pain`
instead of the updated `pn`. -/
def step_internal_instPre (p : Params) (r : Regulation) (n : Nutrition) (d : Draws)
    (dt : ℚ) (s0 : InternalState) (e0 : Environment) : InternalState :=
  let env := env_stress p e0
  let reg := reg_relief r
  let nut := nutrition_support n
  let cl := load_update p dt env reg nut s0.pain s0.instability s0.cognitive_load d.u_load
  let pn := pain_update p r n e0 dt env reg s0.instability s0.fatigue s0.pain d.u_pain
  let ft := fatigue_update p r n e0 dt env cl pn s0.fatigue d.u_fatigue
  let ncb := ncb_update p r n dt env cl pn s0.neurochem_balance d.u_ncb
  let inst := inst_update p e0 dt env reg nut cl ft s0.pain s0.instability d.u_inst
  let nfc := nfc_update p r e0 dt nut inst pn s0.need_for_control d.u_nfc
  { pain := pn, instability := inst, need_for_control := nfc,
    cognitive_load := cl, neurochem_balance := ncb, fatigue := ft }

/-- One full step (internal updates then action loop) on a
state/environment pair, parameterized by the internal-update pass `F` so the
order-test variants can be run through the same loop. -/
def full_step
    (F : Params → Regulation → Nutrition → Draws → ℚ → InternalState → Environment → InternalState)
    (p : Params) (r : Regulation) (n : Nutrition) (d : Draws) (dt : ℚ)
    (se : InternalState × Environment) : InternalState × Environment :=
  let s1 := F p r n d dt se.1 se.2
  let mad := motivation_ability_dispersion s1 (env_stress p se.2) (reg_relief r) (nutrition_support n)
  (s1, update_environment p mad.1 mad.2.1 mad.2.2 dt d.env se.2)

/-- The list of the post-step states of steps `k, k+1, …, k+m-1` of the run
whose step-`i` transition is `g i`. -/
def trajectory (g : ℕ → InternalState × Environment → InternalState × Environment)
    (k : ℕ) (x : InternalState × Environment) : ℕ → List (InternalState × Environment)
  | 0 => []
  | m + 1 => g k x :: trajectory g (k + 1) (g k x) m

/-- The m-step trajectory of the agent run with internal pass `F`, draw
sequence `ds` (one `Draws` record per step), and time step `dt`. -/
def run_traj
    (F : Params → Regulation → Nutrition → Draws → ℚ → InternalState → Environment → InternalState)
    (p : Params) (r : Regulation) (n : Nutrition) (ds : ℕ → Draws) (dt : ℚ)
    (x : InternalState × Environment) (m : ℕ) : List (InternalState × Environment) :=
  trajectory (fun k se => full_step F p r n (ds k) dt se) 0 x m

/-! ## Dict-based fallible step (error-handling model)

`Agent.internal_state` is a Python dict; a missing key raises `KeyError` at
the first read.  `InternalStateD` models the dict (each key optional), and
`simulate_stepD` mirrors `simulate_step` assignment by assignment: every
`s["key"]` read may fail, each of the six assignments happens only after its
reads succeed, and on failure the exception propagates with all *earlier*
assignments retained (the dict is mutated in place in the source).  The
environment/regulation/nutrition sections are modelled at section granularity
(their scalars total), which is all the missing-scalar analysis here needs;
the snapshot append is elided since it only re-reads keys the action loop
already read. -/

/-- The source's dict as a per-key-optional record. -/
structure InternalStateD where
  pain : Option ℚ
  instability : Option ℚ
  need_for_control : Option ℚ
  cognitive_load : Option ℚ
  neurochem_balance : Option ℚ
  fatigue : Option ℚ
deriving DecidableEq

/-- A dict read `d[key]`: `KeyError` when the key is absent. -/
def readKey {α : Type} : Option α → Except Unit α
  | some x => Except.ok x
  | none => Except.error ()

/-- A fully-populated dict for a total internal state. -/
def toD (s : InternalState) : InternalStateD :=
  { pain := some s.pain, instability := some s.instability,
    need_for_control := some s.need_for_control, cognitive_load := some s.cognitive_load,
    neurochem_balance := some s.neurochem_balance, fatigue := some s.fatigue }

/-- Assignment 1 (`s["cognitive_load"] = ...`) on the dict state. -/
def stage_loadD (p : Params) (r : Regulation) (n : Nutrition) (d : Draws) (dt : ℚ)
    (e0 : Environment) (s : InternalStateD) : Except Unit InternalStateD := do
  let pain ← readKey s.pain
  let instability ← readKey s.instability
  let cognitive_load ← readKey s.cognitive_load
  pure { s with cognitive_load := some (load_update p dt (env_stress p e0) (reg_relief r)
    (nutrition_support n) pain instability cognitive_load d.u_load) }

/-- Assignment 2 (`s["pain"] = ...`). -/
def stage_painD (p : Params) (r : Regulation) (n : Nutrition) (d : Draws) (dt : ℚ)
    (e0 : Environment) (s : InternalStateD) : Except Unit InternalStateD := do
  let instability ← readKey s.instability
  let fatigue ← readKey s.fatigue
  let pain ← readKey s.pain
  pure { s with pain := some (pain_update p r n e0 dt (env_stress p e0) (reg_relief r)
    instability fatigue pain d.u_pain) }

/-- Assignment 3 (`s["fatigue"] = ...`). -/
def stage_fatigueD (p : Params) (r : Regulation) (n : Nutrition) (d : Draws) (dt : ℚ)
    (e0 : Environment) (s : InternalStateD) : Except Unit InternalStateD := do
  let cognitive_load ← readKey s.cognitive_load
  let pain ← readKey s.pain
  let fatigue ← readKey s.fatigue
  pure { s with fatigue := some (fatigue_update p r n e0 dt (env_stress p e0)
    cognitive_load pain fatigue d.u_fatigue) }

/-- Assignment 4 (`s["neurochem_balance"] = ...`). -/
def stage_ncbD (p : Params) (r : Regulation) (n : Nutrition) (d : Draws) (dt : ℚ)
    (e0 : Environment) (s : InternalStateD) : Except Unit InternalStateD := do
  let cognitive_load ← readKey s.cognitive_load
  let pain ← readKey s.pain
  let neurochem_balance ← readKey s.neurochem_balance
  pure { s with neurochem_balance := some (ncb_update p r n dt (env_stress p e0)
    cognitive_load pain neurochem_balance d.u_ncb) }

/-- Assignment 5 (`s["instability"] = ...`). -/
def stage_instD (p : Params) (r : Regulation) (n : Nutrition) (d : Draws) (dt : ℚ)
    (e0 : Environment) (s : InternalStateD) : Except Unit InternalStateD := do
  let cognitive_load ← readKey s.cognitive_load
  let fatigue ← readKey s.fatigue
  let pain ← readKey s.pain
  let instability ← readKey s.instability
  pure { s with instability := some (inst_update p e0 dt (env_stress p e0) (reg_relief r)
    (nutrition_support n) cognitive_load fatigue pain instability d.u_inst) }

/-- Assignment 6 (`s["need_for_control"] = ...`). -/
def stage_nfcD (p : Params) (r : Regulation) (n : Nutrition) (d : Draws) (dt : ℚ)
    (e0 : Environment) (s : InternalStateD) : Except Unit InternalStateD := do
  let instability ← readKey s.instability
  let pain ← readKey s.pain
  let need_for_control ← readKey s.need_for_control
  pure { s with need_for_control := some (nfc_update p r e0 dt (nutrition_support n)
    instability pain need_for_control d.u_nfc) }

/-- Run one assignment on the dict: an assignment whose reads fail leaves the
dict exactly as it was (the RHS is evaluated before the store), and the
exception propagates carrying the dict in its current, possibly
partially-updated, condition. -/
def runStage (s : InternalStateD)
    (f : InternalStateD → Except Unit InternalStateD) : Except InternalStateD InternalStateD :=
  match f s with
  | Except.error _ => Except.error s
  | Except.ok s2 => Except.ok s2

/-- Source `Agent.simulate_step` on the dict state: the six assignments in order,
then the action loop.  `Except.error (s, e)` means the step raised `KeyError`
with the agent left holding state `s` and environment `e`; `Except.ok` means
the step completed. -/
def simulate_stepD (p : Params) (r : Regulation) (n : Nutrition) (d : Draws) (dt : ℚ)
    (s : InternalStateD) (e0 : Environment) :
    Except (InternalStateD × Environment) (InternalStateD × Environment) :=
  let res :=
    (runStage s (stage_loadD p r n d dt e0)).bind fun s1 =>
    (runStage s1 (stage_painD p r n d dt e0)).bind fun s2 =>
    (runStage s2 (stage_fatigueD p r n d dt e0)).bind fun s3 =>
    (runStage s3 (stage_ncbD p r n d dt e0)).bind fun s4 =>
    (runStage s4 (stage_instD p r n d dt e0)).bind fun s5 =>
    runStage s5 (stage_nfcD p r n d dt e0)
  match res with
  | Except.error sE => Except.error (sE, e0)
  | Except.ok s6 =>
    match (do
      let pain ← readKey s6.pain
      let instability ← readKey s6.instability
      let need_for_control ← readKey s6.need_for_control
      let cognitive_load ← readKey s6.cognitive_load
      let neurochem_balance ← readKey s6.neurochem_balance
      let fatigue ← readKey s6.fatigue
      pure (motivation_ability_dispersion
        { pain := pain, instability := instability, need_for_control := need_for_control,
          cognitive_load := cognitive_load, neurochem_balance := neurochem_balance,
          fatigue := fatigue }
        (env_stress p e0) (reg_relief r) (nutrition_support n)) :
      Except Unit (ℚ × ℚ × ℚ)) with
    | Except.error _ => Except.error (s6, e0)
    | Except.ok mad => Except.ok (s6, update_environment p mad.1 mad.2.1 mad.2.2 dt d.env e0)

/-- A configuration mapping as handed to `Agent.__init__`: any of the five
sections may be absent (`config["section"]` raises `KeyError`); scalars inside
`internal_state` may themselves be absent. -/
structure Config where
  internal_state : Option InternalStateD
  environment : Option Environment
  regulation : Option Regulation
  nutrition : Option Nutrition
  params : Option Params
deriving DecidableEq

/-- The agent record built by `Agent.__init__`. -/
structure AgentSt where
  internal_state : InternalStateD
  environment : Environment
  regulation : Regulation
  nutrition : Nutrition
  params : Params
deriving DecidableEq

/-- Source `Agent.__init__(config)`: copies the five sections out of the config.  It
fails only if a whole section is absent; it performs no per-scalar validation
(a missing or invalid scalar is not detected here). -/
def mkAgent (c : Config) : Except Unit AgentSt := do
  let s ← readKey c.internal_state
  let e ← readKey c.environment
  let r ← readKey c.regulation
  let n ← readKey c.nutrition
  let p ← readKey c.params
  pure { internal_state := s, environment := e, regulation := r, nutrition := n, params := p }

/-- The default internal-state dict with the required scalar `fatigue`
missing. -/
def c6_state : InternalStateD := { toD default_internal with fatigue := none }

/-- A full configuration whose `internal_state` section lacks `fatigue`. -/
def c6_config : Config :=
  { internal_state := some c6_state, environment := some default_environment,
    regulation := some default_regulation, nutrition := some default_nutrition,
    params := some default_params }

/-! ## Helper lemmas -/

/-- Whatever its argument, `clamp01` lands in `[0,1]`. -/
theorem clamp01_mem (x : ℚ) : 0 ≤ clamp01 x ∧ clamp01 x ≤ 1 := by
  unfold clamp01
  split_ifs with h1 h2
  · exact ⟨le_refl 0, zero_le_one⟩
  · exact ⟨zero_le_one, le_refl 1⟩
  · exact ⟨le_of_not_lt h1, le_of_not_lt h2⟩

/-- A bounded environment stays bounded through the action loop: the early
exit keeps it unchanged, and otherwise the four bounded fields are clamped. -/
theorem update_environment_bounded (p : Params) (m a disp dt : ℚ) (d : EnvDraws)
    (e : Environment) (he : env_bounded e) :
    env_bounded (update_environment p m a disp dt d e) := by
  simp only [update_environment]
  split_ifs with h
  · exact he
  · exact ⟨clamp01_mem _, clamp01_mem _, clamp01_mem _, clamp01_mem _⟩

/-- Two runs whose transition functions disagree on the first step have
different trajectories. -/
theorem trajectory_head_ne
    (g h : ℕ → InternalState × Environment → InternalState × Environment)
    (k : ℕ) (x : InternalState × Environment) (m : ℕ)
    (hne : g k x ≠ h k x) :
    trajectory g k x (m + 1) ≠ trajectory h k x (m + 1) := by
  simp only [trajectory]
  intro hc
  injection hc with h1 _
  exact hne h1

/-- The pain-reads-pre-update-instability mutation is the identity: in the
source, update 2 (`pain`) precedes update 5 (`instability`), so the
`s["instability"]` it reads already is the pre-update value. -/
theorem step_internal_painPre_eq : step_internal_painPre = step_internal := rfl

/-! ## Claims -/

/-- C8: for every regulation input, the regulatory-relief composite equals
`clamp01(0.35·breathing + 0.30·meditation + 0.25·cognitive_override +
0.15·exercise + 0.40·pharmacology)` — the weights summing to `1.45`, not
renormalized, with one final clamp — and it is a pure function of the
regulation section alone (its type reads nothing else and has no effects). -/
theorem c8_reg_relief_formula (r : Regulation) :
    reg_relief r = regulatoryReliefSpec r ∧
    (0.35 + 0.30 + 0.25 + 0.15 + 0.40 : ℚ) = 1.45 :=
  ⟨rfl, by norm_num⟩

/-- C9: the saturation factor is `sat(x) = 0.1 + 0.9·4x(1−x)`; for any fixed
nonzero push, the scaled contribution at `x = 0.02` and at `x = 0.98` is
strictly smaller than at `x = 0.5`; and the step scales the cognitive-load
push by `sat` evaluated at the variable's pre-update value. -/
theorem c9_saturation_damping (x pushv : ℚ) (p : Params) (r : Regulation)
    (n : Nutrition) (d : Draws) (dt : ℚ) (s0 : InternalState) (e0 : Environment)
    (hp : pushv ≠ 0) :
    sat_factor x = 0.1 + 0.9 * (4 * x * (1 - x)) ∧
    sat_factor 0.02 * |pushv| < sat_factor 0.5 * |pushv| ∧
    sat_factor 0.98 * |pushv| < sat_factor 0.5 * |pushv| ∧
    (step_internal p r n d dt s0 e0).cognitive_load =
      clamp01 (pull s0.cognitive_load p.weights.cognitive_load.decay
          p.targets.cognitive_load dt
        + dt * (load_push p (env_stress p e0) (reg_relief r) (nutrition_support n)
            s0.pain s0.instability * sat_factor s0.cognitive_load)
        + noise_for p s0.cognitive_load d.u_load) := by
  have habs : 0 < |pushv| := abs_pos.mpr hp
  refine ⟨by norm_num [sat_factor], ?_, ?_, rfl⟩
  · exact mul_lt_mul_of_pos_right (by norm_num [sat_factor]) habs
  · exact mul_lt_mul_of_pos_right (by norm_num [sat_factor]) habs

/-- C9 witness at `x = 0.3`, `push = 1`, default inputs. -/
theorem c9_saturation_damping_witness :
    (1 : ℚ) ≠ 0 ∧
    (sat_factor 0.3 = 0.1 + 0.9 * (4 * 0.3 * (1 - 0.3)) ∧
     sat_factor 0.02 * |(1 : ℚ)| < sat_factor 0.5 * |(1 : ℚ)| ∧
     sat_factor 0.98 * |(1 : ℚ)| < sat_factor 0.5 * |(1 : ℚ)| ∧
     (step_internal default_params default_regulation default_nutrition zero_draws 1
        default_internal default_environment).cognitive_load =
       clamp01 (pull default_internal.cognitive_load
           default_params.weights.cognitive_load.decay
           default_params.targets.cognitive_load 1
         + 1 * (load_push default_params
             (env_stress default_params default_environment)
             (reg_relief default_regulation) (nutrition_support default_nutrition)
             default_internal.pain default_internal.instability
             * sat_factor default_internal.cognitive_load)
         + noise_for default_params default_internal.cognitive_load
             zero_draws.u_load)) :=
  ⟨by norm_num,
   c9_saturation_damping 0.3 1 default_params default_regulation default_nutrition
     zero_draws 1 default_internal default_environment (by norm_num)⟩

/-- C4: from the default configuration, the cognitive-load push term of the
first step (before saturation scaling) is strictly negative — the relief and
support terms dominate.  (The push term involves neither the noise draws nor
`dt`, so forcing noise to zero and `dt = 1` leaves it as written here.) -/
theorem c4_default_load_push_negative :
    load_push default_params (env_stress default_params default_environment)
      (reg_relief default_regulation) (nutrition_support default_nutrition)
      default_internal.pain default_internal.instability < 0 := by
  norm_num [load_push, env_stress, reg_relief, nutrition_support, temp_stress,
    clamp01, default_params, default_environment, default_regulation,
    default_nutrition, default_internal]

/-- C10: motivation and ability are each clamped to `[0,1]` before the action
magnitude `act = m·a` is formed, so `act ≥ 0` always; the `act ≤ 0` early
exit of the action loop therefore fires exactly when `m = 0` or `a = 0`, and
`act < 0` is unreachable. -/
theorem c10_act_nonneg (s : InternalState) (env reg nut : ℚ) :
    bounded01 (motivation_ability_dispersion s env reg nut).1 ∧
    bounded01 (motivation_ability_dispersion s env reg nut).2.1 ∧
    0 ≤ (motivation_ability_dispersion s env reg nut).1 *
        (motivation_ability_dispersion s env reg nut).2.1 ∧
    ((motivation_ability_dispersion s env reg nut).1 *
        (motivation_ability_dispersion s env reg nut).2.1 ≤ 0 ↔
      (motivation_ability_dispersion s env reg nut).1 = 0 ∨
      (motivation_ability_dispersion s env reg nut).2.1 = 0) := by
  have hm : bounded01 (motivation_ability_dispersion s env reg nut).1 := clamp01_mem _
  have ha : bounded01 (motivation_ability_dispersion s env reg nut).2.1 := clamp01_mem _
  have hprod : 0 ≤ (motivation_ability_dispersion s env reg nut).1 *
      (motivation_ability_dispersion s env reg nut).2.1 := mul_nonneg hm.1 ha.1
  refine ⟨hm, ha, hprod, ?_, ?_⟩
  · intro hle
    exact mul_eq_zero.mp (le_antisymm hle hprod)
  · rintro (h0 | h0) <;> rw [h0] <;> simp

/-- C5 counterexample: the snapshot row produced by a step has 28 fields, not
19 (one step index, six state values, three composites, fifteen raw
environment/regulation/nutrition values, three diagnostics). -/
theorem c5_counterexample :
    (snapshotRow (simulate_step default_params default_regulation default_nutrition
      zero_draws 1 0 default_internal default_environment).snapshot).length ≠ 19 := by
  norm_num [snapshotRow]

/-- C5 amended: every snapshot produced by `simulate_step` carries exactly the
28 stable field names of the source's dict literal, identical (names and
order) across all steps of one run. -/
theorem c5_snapshot_fields (p : Params) (r : Regulation) (n : Nutrition)
    (d : Draws) (dt : ℚ) (k : ℕ) (s0 : InternalState) (e0 : Environment) :
    (snapshotRow (simulate_step p r n d dt k s0 e0).snapshot).map Prod.fst =
      snapshotFieldNames ∧
    snapshotFieldNames.length = 28 :=
  ⟨rfl, rfl⟩

/-- C3: `simulate_step` is deterministic given its random draws — two calls
from identical state, environment, regulation, nutrition, parameters, step
index and draw sequence yield identical snapshots, post states and post
environments. -/
theorem c3_determinism (p p2 : Params) (r r2 : Regulation) (n n2 : Nutrition)
    (d d2 : Draws) (dt dt2 : ℚ) (k k2 : ℕ) (s s2 : InternalState)
    (e e2 : Environment) (hp : p = p2) (hr : r = r2) (hn : n = n2) (hd : d = d2)
    (hdt : dt = dt2) (hk : k = k2) (hs : s = s2) (he : e = e2) :
    (simulate_step p r n d dt k s e).snapshot =
      (simulate_step p2 r2 n2 d2 dt2 k2 s2 e2).snapshot ∧
    (simulate_step p r n d dt k s e).internal =
      (simulate_step p2 r2 n2 d2 dt2 k2 s2 e2).internal ∧
    (simulate_step p r n d dt k s e).environment =
      (simulate_step p2 r2 n2 d2 dt2 k2 s2 e2).environment := by
  subst hp hr hn hd hdt hk hs he
  exact ⟨rfl, rfl, rfl⟩

/-- C3 witness at the default inputs. -/
theorem c3_determinism_witness :
    default_params = default_params ∧ default_regulation = default_regulation ∧
    default_nutrition = default_nutrition ∧ zero_draws = zero_draws ∧
    (1 : ℚ) = 1 ∧ (0 : ℕ) = 0 ∧ default_internal = default_internal ∧
    default_environment = default_environment ∧
    ((simulate_step default_params default_regulation default_nutrition zero_draws
        1 0 default_internal default_environment).snapshot =
      (simulate_step default_params default_regulation default_nutrition zero_draws
        1 0 default_internal default_environment).snapshot ∧
     (simulate_step default_params default_regulation default_nutrition zero_draws
        1 0 default_internal default_environment).internal =
      (simulate_step default_params default_regulation default_nutrition zero_draws
        1 0 default_internal default_environment).internal ∧
     (simulate_step default_params default_regulation default_nutrition zero_draws
        1 0 default_internal default_environment).environment =
      (simulate_step default_params default_regulation default_nutrition zero_draws
        1 0 default_internal default_environment).environment) :=
  ⟨rfl, rfl, rfl, rfl, rfl, rfl, rfl, rfl,
   c3_determinism default_params default_params default_regulation default_regulation
     default_nutrition default_nutrition zero_draws zero_draws 1 1 0 0
     default_internal default_internal default_environment default_environment
     rfl rfl rfl rfl rfl rfl rfl rfl⟩

/-- C1: starting from a state whose `[0,1]`-typed scalars are all in `[0,1]`,
after one `simulate_step` — for every parameterization, noise draw sequence
and `dt` — all six internal-state scalars and the four bounded environment
scalars lie in `[0,1]` (clamping at every assignment); `temperature` is the
one quantity with no such guarantee. -/
theorem c1_boundedness (p : Params) (r : Regulation) (n : Nutrition) (d : Draws)
    (dt : ℚ) (k : ℕ) (s0 : InternalState) (e0 : Environment)
    (hs : state_bounded s0) (he : env_bounded e0) (hr : reg_bounded r)
    (hn : nut_bounded n) :
    state_bounded (simulate_step p r n d dt k s0 e0).internal ∧
    env_bounded (simulate_step p r n d dt k s0 e0).environment :=
  ⟨⟨clamp01_mem _, clamp01_mem _, clamp01_mem _, clamp01_mem _, clamp01_mem _,
    clamp01_mem _⟩,
   update_environment_bounded _ _ _ _ _ _ _ he⟩

/-- C1 witness at the default configuration. -/
theorem c1_boundedness_witness :
    (state_bounded default_internal ∧ env_bounded default_environment ∧
     reg_bounded default_regulation ∧ nut_bounded default_nutrition) ∧
    (state_bounded (simulate_step default_params default_regulation
        default_nutrition zero_draws 1 0 default_internal
        default_environment).internal ∧
     env_bounded (simulate_step default_params default_regulation
        default_nutrition zero_draws 1 0 default_internal
        default_environment).environment) :=
  ⟨⟨by norm_num [state_bounded, bounded01, default_internal],
    by norm_num [env_bounded, bounded01, default_environment],
    by norm_num [reg_bounded, bounded01, default_regulation],
    by norm_num [nut_bounded, bounded01, default_nutrition]⟩,
   c1_boundedness default_params default_regulation default_nutrition zero_draws
     1 0 default_internal default_environment
     (by norm_num [state_bounded, bounded01, default_internal])
     (by norm_num [env_bounded, bounded01, default_environment])
     (by norm_num [reg_bounded, bounded01, default_regulation])
     (by norm_num [nut_bounded, bounded01, default_nutrition])⟩

/-- C7: if the effective action magnitude `act = motivation·ability` computed
at the action-loop stage of a step is `≤ 0`, every environment variable is
left with the same value it had before the action loop ran (which, within one
step, is its pre-step value). -/
theorem c7_zero_action_env_unchanged (p : Params) (r : Regulation) (n : Nutrition)
    (d : Draws) (dt : ℚ) (k : ℕ) (s0 : InternalState) (e0 : Environment)
    (h : (motivation_ability_dispersion (step_internal p r n d dt s0 e0)
          (env_stress p e0) (reg_relief r) (nutrition_support n)).1 *
        (motivation_ability_dispersion (step_internal p r n d dt s0 e0)
          (env_stress p e0) (reg_relief r) (nutrition_support n)).2.1 ≤ 0) :
    (simulate_step p r n d dt k s0 e0).environment = e0 := by
  show update_environment p _ _ _ dt d.env e0 = e0
  simp only [update_environment]
  rw [if_pos h]

/-- C7 witness: a zero-motivation state (pain, need-for-control and load at
zero; relief, fatigue and neurochemical balance maxed; no environmental
stress), held fixed by `dt = 0` and zero noise. -/
theorem c7_zero_action_env_unchanged_witness :
    ((motivation_ability_dispersion
        (step_internal default_params ⟨1, 1, 1, 1, 1⟩ ⟨1, 1, 1, 1, 1⟩ zero_draws 0
          ⟨0, 0, 0, 0, 1, 1⟩ ⟨22, 0, 1, 0, 0⟩)
        (env_stress default_params ⟨22, 0, 1, 0, 0⟩) (reg_relief ⟨1, 1, 1, 1, 1⟩)
        (nutrition_support ⟨1, 1, 1, 1, 1⟩)).1 *
      (motivation_ability_dispersion
        (step_internal default_params ⟨1, 1, 1, 1, 1⟩ ⟨1, 1, 1, 1, 1⟩ zero_draws 0
          ⟨0, 0, 0, 0, 1, 1⟩ ⟨22, 0, 1, 0, 0⟩)
        (env_stress default_params ⟨22, 0, 1, 0, 0⟩) (reg_relief ⟨1, 1, 1, 1, 1⟩)
        (nutrition_support ⟨1, 1, 1, 1, 1⟩)).2.1 ≤ 0) ∧
    (simulate_step default_params ⟨1, 1, 1, 1, 1⟩ ⟨1, 1, 1, 1, 1⟩ zero_draws 0 0
      ⟨0, 0, 0, 0, 1, 1⟩ ⟨22, 0, 1, 0, 0⟩).environment = ⟨22, 0, 1, 0, 0⟩ :=
  ⟨by norm_num [motivation_ability_dispersion, step_internal, load_update,
      pain_update, fatigue_update, ncb_update, inst_update, nfc_update, load_push,
      pull, homeostasis, sat_factor, noise_for, edge_factor, inv_u, env_stress,
      reg_relief, nutrition_support, temp_stress, clamp01, default_params,
      zero_draws],
   c7_zero_action_env_unchanged default_params ⟨1, 1, 1, 1, 1⟩ ⟨1, 1, 1, 1, 1⟩
     zero_draws 0 0 ⟨0, 0, 0, 0, 1, 1⟩ ⟨22, 0, 1, 0, 0⟩
     (by norm_num [motivation_ability_dispersion, step_internal, load_update,
       pain_update, fatigue_update, ncb_update, inst_update, nfc_update, load_push,
       pull, homeostasis, sat_factor, noise_for, edge_factor, inv_u, env_stress,
       reg_relief, nutrition_support, temp_stress, clamp01, default_params,
       zero_draws])⟩

/-- C2 counterexample: mutating `pain`'s update to read `instability`'s
pre-update value changes nothing — in the source, `pain` (update 2) runs
before `instability` (update 5), so the value it reads already is the
pre-update one.  The two embeddings are equal, and every trajectory
coincides, for every parameterization, seed, start, `dt` and horizon. -/
theorem c2_counterexample :
    ¬ ∃ (p : Params) (r : Regulation) (n : Nutrition) (ds : ℕ → Draws) (dt : ℚ)
        (x : InternalState × Environment) (m : ℕ),
      run_traj step_internal_painPre p r n ds dt x m ≠
        run_traj step_internal p r n ds dt x m := by
  rintro ⟨p, r, n, ds, dt, x, m, hne⟩
  exact hne (by rw [step_internal_painPre_eq])

/-- C2 amended: the fixed update order is significant in the pain–instability
pair in the direction the source actually exercises — the variant in which
`instability`'s push reads `pain`'s *pre-update* value yields a different
50-step trajectory (it differs already at step 1) for at least one seed, e.g.
the all-zero draw sequence, from the default start with `dt = 1`. -/
theorem c2_order_sensitivity :
    ∃ ds : ℕ → Draws,
      run_traj step_internal_instPre default_params default_regulation
        default_nutrition ds 1 (default_internal, default_environment) 50 ≠
      run_traj step_internal default_params default_regulation
        default_nutrition ds 1 (default_internal, default_environment) 50 := by
  refine ⟨fun _ => zero_draws, ?_⟩
  have hne : full_step step_internal_instPre default_params default_regulation
      default_nutrition zero_draws 1 (default_internal, default_environment) ≠
      full_step step_internal default_params default_regulation default_nutrition
      zero_draws 1 (default_internal, default_environment) := by
    intro hc
    have h2 := congrArg (fun z => z.1.instability) hc
    simp only [full_step] at h2
    norm_num [step_internal, step_internal_instPre, load_update, pain_update,
      fatigue_update, ncb_update, inst_update, nfc_update, load_push, pull,
      homeostasis, sat_factor, noise_for, edge_factor, env_stress, reg_relief,
      nutrition_support, temp_stress, clamp01, default_params, default_internal,
      default_environment, default_regulation, default_nutrition, zero_draws] at h2
  exact trajectory_head_ne _ _ 0 _ 49 hne

/-- C6 counterexample: with the required scalar `fatigue` missing from
`internal_state`, construction succeeds (`Agent.__init__` does not validate
scalars), and the step stops with a `KeyError` only *after* assigning the new
`cognitive_load` — the step is partially applied: it neither completes nor
fails before mutating the state. -/
theorem c6_counterexample :
    mkAgent c6_config =
      Except.ok (⟨c6_state, default_environment, default_regulation,
        default_nutrition, default_params⟩ : AgentSt) ∧
    simulate_stepD default_params default_regulation default_nutrition zero_draws 1
        c6_state default_environment =
      Except.error
        ({ c6_state with cognitive_load := some (load_update default_params 1
            (env_stress default_params default_environment)
            (reg_relief default_regulation) (nutrition_support default_nutrition)
            default_internal.pain default_internal.instability
            default_internal.cognitive_load zero_draws.u_load) },
         default_environment) ∧
    load_update default_params 1 (env_stress default_params default_environment)
        (reg_relief default_regulation) (nutrition_support default_nutrition)
        default_internal.pain default_internal.instability
        default_internal.cognitive_load zero_draws.u_load ≠
      default_internal.cognitive_load := by
  refine ⟨rfl, rfl, ?_⟩
  norm_num [load_update, load_push, pull, homeostasis, sat_factor, noise_for,
    edge_factor, env_stress, reg_relief, nutrition_support, temp_stress, clamp01,
    default_params, default_internal, default_environment, default_regulation,
    default_nutrition, zero_draws]

/-- C6 amended: when every required scalar is present, a step is total and
fully applied — all six state variables update and the action loop runs,
agreeing with the total-state embedding; a *missing* scalar, by contrast, is
not caught at construction but surfaces at its first read inside the step,
possibly after earlier assignments of the same pass (see the
counterexample). -/
theorem c6_amended_total_step (p : Params) (r : Regulation) (n : Nutrition)
    (d : Draws) (dt : ℚ) (k : ℕ) (s0 : InternalState) (e0 : Environment) :
    simulate_stepD p r n d dt (toD s0) e0 =
      Except.ok (toD (step_internal p r n d dt s0 e0),
        (simulate_step p r n d dt k s0 e0).environment) := rfl

end CFSS
